import Mathlib

/-
Shallow embedding of the session-and-streaming coordinator from
src/src/durable-objects/ToolSession.ts.

JavaScript numbers that carry timestamps, counters and progress values are
modelled as Int (all code paths keep them integral); the durable storage is
modelled as an association list from keys to session records; WebSocket
connections are modelled as handles with a `broken` flag deciding whether a
`send` to them throws.
-/

namespace ToolSessionModel

/-- Session status values, from the SessionData interface (ToolSession.ts line 5):
`active`, `inactive`, `streaming`. -/
inductive SessionStatus
  | active
  | inactive
  | streaming
deriving DecidableEq, Repr

/-- Tool execution status values (ToolSession.ts line 10): `running`,
`completed`, `failed`. -/
inductive ExecStatus
  | running
  | completed
  | failed
deriving DecidableEq, Repr

/-- One entry of SessionData.toolExecutions (ToolSession.ts lines 6-14). -/
structure ToolExecution where
  id : String
  toolName : String
  agent : String
  status : ExecStatus
  startTime : Int
  endTime : Option Int
  progress : Option Int
deriving DecidableEq, Repr

/-- The SessionData record persisted in durable storage
(ToolSession.ts lines 1-17). -/
structure SessionData where
  id : String
  createdAt : Int
  updatedAt : Int
  status : SessionStatus
  toolExecutions : List ToolExecution
  websocketConnections : Int
  lastActivity : Int
deriving DecidableEq, Repr

/-- The durable storage: an association list from string keys (of the form
`session:<id>`) to session records. -/
abbrev Store := List (String × SessionData)

/-- `s.startsWith(pre)`, computed on the underlying character lists so that
concrete instances evaluate. -/
def strStartsWith (s pre : String) : Bool :=
  pre.data.isPrefixOf s.data

/-- Splitting a character list on a separator character, keeping empty
segments, as JavaScript `split` does. -/
def splitCharList (sep : Char) : List Char → List (List Char)
  | [] => [[]]
  | c :: rest =>
      if c == sep then [] :: splitCharList sep rest
      else
        match splitCharList sep rest with
        | [] => [[c]]
        | h :: t => (c :: h) :: t

/-- `chunk.split('\n')` (ToolSession.ts line 249): split on the newline
character (code point 10), keeping empty segments. -/
def splitNewlines (s : String) : List String :=
  (splitCharList (Char.ofNat 10) s.data).map String.mk

/-- `line.slice(n)`: drop the first n characters. -/
def strDrop (s : String) (n : Nat) : String :=
  String.mk (s.data.drop n)

/-- `state.storage.get(key)`: first entry with the given key, if any. -/
def storeGet (st : Store) (k : String) : Option SessionData :=
  (st.find? (fun e => e.1 == k)).map (fun e => e.2)

/-- `state.storage.put(key, v)`: replace any entry with the given key. -/
def storePut (st : Store) (k : String) (v : SessionData) : Store :=
  (k, v) :: st.filter (fun e => !(e.1 == k))

/-- `state.storage.delete(key)`: returns whether the key was present, and the
store without it. -/
def storeDelete (st : Store) (k : String) : Bool × Store :=
  ((st.find? (fun e => e.1 == k)).isSome, st.filter (fun e => !(e.1 == k)))

/-- The request body of createSession (`await request.json()`), merged over the
default fields with Object.assign (ToolSession.ts lines 382-391): each field the
caller supplies overrides the default. -/
structure SessionPatch where
  id : Option String := none
  createdAt : Option Int := none
  updatedAt : Option Int := none
  status : Option SessionStatus := none
  toolExecutions : Option (List ToolExecution) := none
  websocketConnections : Option Int := none
  lastActivity : Option Int := none
deriving DecidableEq, Repr

/-- `Object.assign(base, patch)`: fields present in the patch overwrite the
base record's fields. -/
def objectAssign (base : SessionData) (p : SessionPatch) : SessionData :=
  { id := p.id.getD base.id
    createdAt := p.createdAt.getD base.createdAt
    updatedAt := p.updatedAt.getD base.updatedAt
    status := p.status.getD base.status
    toolExecutions := p.toolExecutions.getD base.toolExecutions
    websocketConnections := p.websocketConnections.getD base.websocketConnections
    lastActivity := p.lastActivity.getD base.lastActivity }

/-- The default session record built by createSession before the Object.assign
merge (ToolSession.ts lines 383-391): status `active`, empty executions, zero
connections, all timestamps set to now. -/
def defaultSession (now : Int) (sessionId : String) : SessionData :=
  { id := sessionId
    createdAt := now
    updatedAt := now
    status := SessionStatus.active
    toolExecutions := []
    websocketConnections := 0
    lastActivity := now }

/-- createSession (ToolSession.ts lines 380-402): builds the default record,
merges the request body over it, and puts it in the store under
`session:<id>` — with no check whether the key already exists. Returns the
updated store and the record written. -/
def createSession (now : Int) (sessionId : String) (body : SessionPatch)
    (st : Store) : Store × SessionData :=
  let session := objectAssign (defaultSession now sessionId) body
  (storePut st ("session:" ++ sessionId) session, session)

theorem storeGet_storePut_self (st : Store) (k : String) (v : SessionData) :
    storeGet (storePut st k v) k = some v := by
  simp [storeGet, storePut, List.find?_cons]

/-- C1: the claim states that createOrGet on an existing session id returns the
existing record unchanged and ignores initialData. The code (createSession,
ToolSession.ts lines 380-402) never reads the existing record: it overwrites
the stored record with the defaults merged with the request body. Concretely,
with a stored record whose createdAt is 1 and status is active, a createSession
call at time 10 with a body setting status to streaming replaces the stored
record with a different one. -/
theorem c1_counterexample :
    storeGet
        (createSession 10 "s1" { status := some SessionStatus.streaming }
          [("session:s1",
            { id := "s1", createdAt := 1, updatedAt := 1,
              status := SessionStatus.active, toolExecutions := [],
              websocketConnections := 0, lastActivity := 1 })]).1
        "session:s1"
      ≠ some
          { id := "s1", createdAt := 1, updatedAt := 1,
            status := SessionStatus.active, toolExecutions := [],
            websocketConnections := 0, lastActivity := 1 } := by
  decide

/-- C1 (amended): createSession is an unconditional overwrite: for every prior
store, after createSession(sessionId, body) the stored record under
`session:<sessionId>` is the default record (fresh timestamps, status active,
empty executions, zero connections) merged with the request body — independent
of any record previously stored under that id. -/
theorem c1_create_session_overwrites (now : Int) (sessionId : String)
    (body : SessionPatch) (st : Store) :
    storeGet (createSession now sessionId body st).1 ("session:" ++ sessionId)
        = some (objectAssign (defaultSession now sessionId) body)
    ∧ (createSession now sessionId body st).2
        = objectAssign (defaultSession now sessionId) body := by
  exact ⟨storeGet_storePut_self _ _ _, rfl⟩

/-- Attaching a WebSocket connection (handleWebSocket, ToolSession.ts lines
80-86): increments websocketConnections, sets status to streaming, refreshes
lastActivity. -/
def attachSession (now : Int) (s : SessionData) : SessionData :=
  { s with
    websocketConnections := s.websocketConnections + 1
    status := SessionStatus.streaming
    lastActivity := now }

/-- Detaching a WebSocket connection (close handler, ToolSession.ts lines
117-128): websocketConnections becomes `Math.max(0, n - 1)`; when it reaches 0
the status becomes inactive; lastActivity refreshed. -/
def detachSession (now : Int) (s : SessionData) : SessionData :=
  let n := max 0 (s.websocketConnections - 1)
  { s with
    websocketConnections := n
    status := if n = 0 then SessionStatus.inactive else s.status
    lastActivity := now }

/-- One attach or detach step on a session, tagged with its wall-clock time. -/
inductive ConnOp
  | attach (now : Int)
  | detach (now : Int)
deriving DecidableEq, Repr

def applyConnOp (s : SessionData) : ConnOp → SessionData
  | ConnOp.attach now => attachSession now s
  | ConnOp.detach now => detachSession now s

def applyConnOps (s : SessionData) (ops : List ConnOp) : SessionData :=
  ops.foldl applyConnOp s

def isAttach : ConnOp → Bool
  | ConnOp.attach _ => true
  | ConnOp.detach _ => false

/-- A sequence of connection operations is well-formed from a state when every
detach step closes a connection that is actually attached: in the code, the
close handler only ever fires for a WebSocket that was added to the set, so a
detach is observed only while the connection count is positive. -/
def connOpsWF (s : SessionData) : List ConnOp → Bool
  | [] => true
  | op :: rest =>
      (isAttach op || decide (0 < s.websocketConnections))
        && connOpsWF (applyConnOp s op) rest

def attachCount (ops : List ConnOp) : Nat := ops.countP isAttach

def detachCount (ops : List ConnOp) : Nat := ops.countP (fun op => !isAttach op)

theorem connAccounting_aux (ops : List ConnOp) (s : SessionData)
    (hinv : s.status = SessionStatus.streaming ↔ 0 < s.websocketConnections)
    (hpos : 0 ≤ s.websocketConnections)
    (hwf : connOpsWF s ops = true) :
    (applyConnOps s ops).websocketConnections
        = s.websocketConnections + (attachCount ops : Int) - (detachCount ops : Int)
    ∧ 0 ≤ (applyConnOps s ops).websocketConnections
    ∧ ((applyConnOps s ops).status = SessionStatus.streaming
        ↔ 0 < (applyConnOps s ops).websocketConnections) := by
  induction ops generalizing s with
  | nil =>
      refine ⟨?_, hpos, hinv⟩
      simp [applyConnOps, attachCount, detachCount]
  | cons op rest ih =>
      rw [connOpsWF, Bool.and_eq_true] at hwf
      obtain ⟨hop, hrest⟩ := hwf
      have hfold : applyConnOps s (op :: rest) = applyConnOps (applyConnOp s op) rest := rfl
      cases op with
      | attach now =>
          have hinv' : (applyConnOp s (ConnOp.attach now)).status = SessionStatus.streaming
              ↔ 0 < (applyConnOp s (ConnOp.attach now)).websocketConnections := by
            simp [applyConnOp, attachSession]
            omega
          have hpos' : 0 ≤ (applyConnOp s (ConnOp.attach now)).websocketConnections := by
            simp [applyConnOp, attachSession]
            omega
          obtain ⟨h1, h2, h3⟩ := ih (applyConnOp s (ConnOp.attach now)) hinv' hpos' hrest
          refine ⟨?_, by rw [hfold]; exact h2, by rw [hfold]; exact h3⟩
          have hac : (attachCount (ConnOp.attach now :: rest) : Int)
              = (attachCount rest : Int) + 1 := by
            simp [attachCount, List.countP_cons, isAttach]
          have hdc : (detachCount (ConnOp.attach now :: rest) : Int)
              = (detachCount rest : Int) := by
            simp [detachCount, List.countP_cons, isAttach]
          have hcur : (applyConnOp s (ConnOp.attach now)).websocketConnections
              = s.websocketConnections + 1 := by
            simp [applyConnOp, attachSession]
          rw [hfold, h1, hcur, hac, hdc]
          ring
      | detach now =>
          have hcnt : 0 < s.websocketConnections := by
            simp [isAttach] at hop
            exact hop
          have hmax : max 0 (s.websocketConnections - 1) = s.websocketConnections - 1 := by
            omega
          have hinv' : (applyConnOp s (ConnOp.detach now)).status = SessionStatus.streaming
              ↔ 0 < (applyConnOp s (ConnOp.detach now)).websocketConnections := by
            simp only [applyConnOp, detachSession, hmax]
            by_cases hz : s.websocketConnections - 1 = 0
            · simp [hz]
            · simp [hz]
              constructor
              · intro _
                omega
              · intro _
                exact hinv.mpr hcnt
          have hpos' : 0 ≤ (applyConnOp s (ConnOp.detach now)).websocketConnections := by
            simp only [applyConnOp, detachSession, hmax]
            omega
          obtain ⟨h1, h2, h3⟩ := ih (applyConnOp s (ConnOp.detach now)) hinv' hpos' hrest
          refine ⟨?_, by rw [hfold]; exact h2, by rw [hfold]; exact h3⟩
          have hac : (attachCount (ConnOp.detach now :: rest) : Int)
              = (attachCount rest : Int) := by
            simp [attachCount, List.countP_cons, isAttach]
          have hdc : (detachCount (ConnOp.detach now :: rest) : Int)
              = (detachCount rest : Int) + 1 := by
            simp [detachCount, List.countP_cons, isAttach]
          have hcur : (applyConnOp s (ConnOp.detach now)).websocketConnections
              = s.websocketConnections - 1 := by
            simp only [applyConnOp, detachSession, hmax]
          rw [hfold, h1, hcur, hac, hdc]
          ring

/-- C2: starting from the record createSession writes by default (status
active, zero connections), for every well-formed sequence of attach/detach
operations the final websocketConnections equals the number of attaches minus
the number of detaches, is never negative, and the status is streaming exactly
when websocketConnections is positive. Since the statement quantifies over all
well-formed sequences, it holds at every intermediate point of a run as well. -/
theorem c2_attach_detach_accounting (now0 : Int) (sid : String)
    (ops : List ConnOp)
    (hwf : connOpsWF (defaultSession now0 sid) ops = true) :
    (applyConnOps (defaultSession now0 sid) ops).websocketConnections
        = (attachCount ops : Int) - (detachCount ops : Int)
    ∧ 0 ≤ (applyConnOps (defaultSession now0 sid) ops).websocketConnections
    ∧ ((applyConnOps (defaultSession now0 sid) ops).status = SessionStatus.streaming
        ↔ 0 < (applyConnOps (defaultSession now0 sid) ops).websocketConnections) := by
  have h := connAccounting_aux ops (defaultSession now0 sid)
    (by simp [defaultSession]) (by simp [defaultSession]) hwf
  obtain ⟨h1, h2, h3⟩ := h
  refine ⟨?_, h2, h3⟩
  rw [h1]
  simp [defaultSession]

/-- C2 witness: two attaches then one detach from a fresh session leave one
connection and streaming status. -/
theorem c2_attach_detach_accounting_witness :
    connOpsWF (defaultSession 0 "s")
        [ConnOp.attach 1, ConnOp.attach 2, ConnOp.detach 3] = true
    ∧ ((applyConnOps (defaultSession 0 "s")
          [ConnOp.attach 1, ConnOp.attach 2, ConnOp.detach 3]).websocketConnections
        = (attachCount [ConnOp.attach 1, ConnOp.attach 2, ConnOp.detach 3] : Int)
            - (detachCount [ConnOp.attach 1, ConnOp.attach 2, ConnOp.detach 3] : Int)
    ∧ 0 ≤ (applyConnOps (defaultSession 0 "s")
          [ConnOp.attach 1, ConnOp.attach 2, ConnOp.detach 3]).websocketConnections
    ∧ ((applyConnOps (defaultSession 0 "s")
          [ConnOp.attach 1, ConnOp.attach 2, ConnOp.detach 3]).status
            = SessionStatus.streaming
        ↔ 0 < (applyConnOps (defaultSession 0 "s")
            [ConnOp.attach 1, ConnOp.attach 2, ConnOp.detach 3]).websocketConnections)) :=
  ⟨by decide, c2_attach_detach_accounting 0 "s" _ (by decide)⟩

/-- `session.toolExecutions.find(e => e.id === executionId)` followed by an
in-place mutation: only the first entry matching the predicate is rewritten. -/
def updateFirst (p : ToolExecution → Bool) (f : ToolExecution → ToolExecution) :
    List ToolExecution → List ToolExecution
  | [] => []
  | e :: rest => if p e then f e :: rest else e :: updateFirst p f rest

theorem updateFirst_of_id (p : ToolExecution → Bool)
    (f : ToolExecution → ToolExecution) (hid : ∀ e, f e = e) :
    ∀ l : List ToolExecution, updateFirst p f l = l := by
  intro l
  induction l with
  | nil => rfl
  | cons e rest ih =>
      by_cases hp : p e = true
      · simp [updateFirst, hp, hid]
      · simp [updateFirst, hp, ih]

theorem find?_updateFirst (p : ToolExecution → Bool)
    (f : ToolExecution → ToolExecution) (hp : ∀ e, p e = true → p (f e) = true) :
    ∀ l : List ToolExecution,
      (updateFirst p f l).find? p = (l.find? p).map f := by
  intro l
  induction l with
  | nil => rfl
  | cons e rest ih =>
      by_cases he : p e = true
      · simp [updateFirst, he, List.find?_cons, hp e he]
      · simp [updateFirst, he, List.find?_cons, ih]

theorem updateFirst_updateFirst (p : ToolExecution → Bool)
    (f : ToolExecution → ToolExecution) (hp : ∀ e, p e = true → p (f e) = true)
    (hff : ∀ e, f (f e) = f e) :
    ∀ l : List ToolExecution,
      updateFirst p f (updateFirst p f l) = updateFirst p f l := by
  intro l
  induction l with
  | nil => rfl
  | cons e rest ih =>
      by_cases he : p e = true
      · simp [updateFirst, he, hp e he, hff]
      · simp [updateFirst, he, ih]

/-- The terminal transition of an execution as the code performs it
(ToolSession.ts lines 288-297 for success and 300-309 for failure): find the
execution by id and set its fields unconditionally — on success status
completed, endTime now, progress 100; on failure status failed, endTime now,
progress untouched. There is no guard against the execution already being
terminal. -/
def completeExec1 (now : Int) (success : Bool) (e : ToolExecution) :
    ToolExecution :=
  if success then
    { e with status := ExecStatus.completed, endTime := some now,
             progress := some 100 }
  else
    { e with status := ExecStatus.failed, endTime := some now }

def completeExecution (now : Int) (success : Bool) (executionId : String)
    (s : SessionData) : SessionData :=
  { s with
    toolExecutions :=
      updateFirst (fun e => e.id == executionId) (completeExec1 now success)
        s.toolExecutions }

/-- C3: the claim states that once an execution is terminal a further
completeExecution call with either success value leaves status, endTime and
progress unchanged. The code has no terminal guard: on an execution already
completed at time 5 with progress 100, a completion call with success false at
time 7 overwrites status (completed becomes failed) and endTime (5 becomes
7). -/
theorem c3_counterexample :
    completeExecution 7 false "e1"
        { id := "s1", createdAt := 0, updatedAt := 0,
          status := SessionStatus.active,
          toolExecutions :=
            [{ id := "e1", toolName := "scan", agent := "bug_hunter",
               status := ExecStatus.completed, startTime := 1,
               endTime := some 5, progress := some 100 }],
          websocketConnections := 0, lastActivity := 0 }
      ≠ { id := "s1", createdAt := 0, updatedAt := 0,
          status := SessionStatus.active,
          toolExecutions :=
            [{ id := "e1", toolName := "scan", agent := "bug_hunter",
               status := ExecStatus.completed, startTime := 1,
               endTime := some 5, progress := some 100 }],
          websocketConnections := 0, lastActivity := 0 } := by
  decide

/-- C3 (amended): the terminal transition is applied unconditionally, so it is
idempotent only per identical arguments: repeating completeExecution with the
same success value and the same time changes nothing, while a second call with
a different success value or time overwrites status and endTime (the code
relies on each execution being completed exactly once, in
handleToolExecutionRequest). -/
theorem c3_complete_idempotent_same_args (now : Int) (success : Bool)
    (executionId : String) (s : SessionData) :
    completeExecution now success executionId
        (completeExecution now success executionId s)
      = completeExecution now success executionId s := by
  unfold completeExecution
  dsimp only
  congr 1
  apply updateFirst_updateFirst
  · intro e he
    cases success <;> simpa [completeExec1] using he
  · intro e
    cases success <;> simp [completeExec1]

/-- The progress update the relay performs for a decoded progress event
(ToolSession.ts line 261): `execution.progress = parsedData.data?.progress ||
execution.progress`. A missing field is modelled as none; the JavaScript `||`
keeps the previous progress whenever the incoming value is falsy (absent or
0). There is no clamping and no terminal-status guard. -/
def jsTruthy : Option Int → Bool
  | none => false
  | some n => !(n == 0)

def updateProgress (executionId : String) (p : Option Int) (s : SessionData) :
    SessionData :=
  { s with
    toolExecutions :=
      updateFirst (fun e => e.id == executionId)
        (fun e => { e with progress := if jsTruthy p then p else e.progress })
        s.toolExecutions }

/-- C4: the claim states updateProgress is a no-op on a terminal execution and
otherwise clamps into [0,100]. The code does neither: on an execution already
completed with progress 100, an update with value 150 sets progress to 150 —
the terminal status is ignored and the value is not clamped. -/
theorem c4_counterexample :
    (updateProgress "e1" (some 150)
        { id := "s1", createdAt := 0, updatedAt := 0,
          status := SessionStatus.active,
          toolExecutions :=
            [{ id := "e1", toolName := "scan", agent := "bug_hunter",
               status := ExecStatus.completed, startTime := 1,
               endTime := some 5, progress := some 100 }],
          websocketConnections := 0, lastActivity := 0 }).toolExecutions
      = [{ id := "e1", toolName := "scan", agent := "bug_hunter",
           status := ExecStatus.completed, startTime := 1,
           endTime := some 5, progress := some 150 }] := by
  decide

/-- C4 (amended): updateProgress keeps the previous progress whenever the
incoming value is absent or 0 (JavaScript falsy) — in that case the whole
session record is unchanged — and otherwise sets the first matching
execution's progress to the incoming value as is, with no clamping and
regardless of whether the execution is terminal. -/
theorem c4_update_progress_unclamped (executionId : String) (p : Option Int)
    (s : SessionData) :
    (jsTruthy p = false → updateProgress executionId p s = s)
    ∧ (jsTruthy p = true →
        (updateProgress executionId p s).toolExecutions.find?
            (fun e => e.id == executionId)
          = (s.toolExecutions.find? (fun e => e.id == executionId)).map
              (fun e => { e with progress := p })) := by
  constructor
  · intro hf
    unfold updateProgress
    have : updateFirst (fun e => e.id == executionId)
        (fun e => { e with progress := if jsTruthy p then p else e.progress })
        s.toolExecutions = s.toolExecutions := by
      apply updateFirst_of_id
      intro e
      rw [hf]
      rfl
    rw [this]
  · intro ht
    unfold updateProgress
    have := find?_updateFirst (fun e => e.id == executionId)
      (fun e => { e with progress := if jsTruthy p then p else e.progress })
      (fun e he => he) s.toolExecutions
    rw [this, ht]
    simp

/-- C4 witness: a falsy update (value 0) leaves a concrete session unchanged,
and a truthy update (value 150) rewrites the found execution's progress. -/
theorem c4_update_progress_unclamped_witness :
    updateProgress "e1" (some 0)
        { id := "s1", createdAt := 0, updatedAt := 0,
          status := SessionStatus.active,
          toolExecutions :=
            [{ id := "e1", toolName := "scan", agent := "bug_hunter",
               status := ExecStatus.running, startTime := 1,
               endTime := none, progress := some 10 }],
          websocketConnections := 0, lastActivity := 0 }
      = { id := "s1", createdAt := 0, updatedAt := 0,
          status := SessionStatus.active,
          toolExecutions :=
            [{ id := "e1", toolName := "scan", agent := "bug_hunter",
               status := ExecStatus.running, startTime := 1,
               endTime := none, progress := some 10 }],
          websocketConnections := 0, lastActivity := 0 } :=
  (c4_update_progress_unclamped "e1" (some 0)
    { id := "s1", createdAt := 0, updatedAt := 0,
      status := SessionStatus.active,
      toolExecutions :=
        [{ id := "e1", toolName := "scan", agent := "bug_hunter",
           status := ExecStatus.running, startTime := 1,
           endTime := none, progress := some 10 }],
      websocketConnections := 0, lastActivity := 0 }).1 (by decide)

/-- The kinds of StreamMessage (ToolSession.ts line 20). -/
inductive EventKind
  | progress
  | data
  | error
  | complete
  | connection
  | ping
  | pong
deriving DecidableEq, Repr

/-- One WebSocket connection held in the durable object's in-memory set; the
`broken` flag models whether `ws.send` throws for this peer. -/
structure WSConn where
  cid : Nat
  broken : Bool
deriving DecidableEq, Repr

/-- broadcastToWebSockets (ToolSession.ts lines 518-528): iterate over the
connection set; a successful send is recorded as a delivery, a throwing send
removes the connection from the set and the loop continues with the rest.
Returns the surviving set and the deliveries, in iteration order. -/
def broadcastToWebSockets (kind : EventKind) :
    List WSConn → List WSConn × List (Nat × EventKind)
  | [] => ([], [])
  | c :: rest =>
      let r := broadcastToWebSockets kind rest
      if c.broken then r else (c :: r.1, (c.cid, kind) :: r.2)

theorem broadcastToWebSockets_eq (kind : EventKind) (l : List WSConn) :
    broadcastToWebSockets kind l
      = (l.filter (fun c => !c.broken),
         (l.filter (fun c => !c.broken)).map (fun c => (c.cid, kind))) := by
  induction l with
  | nil => rfl
  | cons c rest ih =>
      by_cases hb : c.broken = true
      · simp [broadcastToWebSockets, hb, ih]
      · simp [broadcastToWebSockets, hb, ih]

theorem length_filter_add_countP_broken (l : List WSConn) :
    (l.filter (fun c => !c.broken)).length + l.countP (fun c => c.broken)
      = l.length := by
  induction l with
  | nil => rfl
  | cons c rest ih =>
      by_cases hb : c.broken = true
      · simp only [List.filter_cons, List.countP_cons, hb, List.length_cons]
        simp only [Bool.not_true, Bool.false_eq_true, if_false, if_true]
        omega
      · simp only [List.filter_cons, List.countP_cons,
          Bool.not_eq_true] at hb ⊢
        rw [hb]
        simp only [Bool.not_false, if_true, Bool.false_eq_true, if_false,
          List.length_cons]
        omega

theorem length_filter_healthy (l : List WSConn)
    (h : l.countP (fun c => c.broken) = 1) :
    (l.filter (fun c => !c.broken)).length = l.length - 1 := by
  have := length_filter_add_countP_broken l
  omega

/-- C5: with exactly one broken connection among the attached set, broadcast
delivers the event to all the other connections (N - 1 deliveries, one per
healthy connection, in order), removes only the broken connection from the
set, and the loop never aborts: every healthy connection receives the
event. -/
theorem c5_broadcast_isolation (kind : EventKind) (conns : List WSConn)
    (h : conns.countP (fun c => c.broken) = 1) :
    (broadcastToWebSockets kind conns).2.length = conns.length - 1
    ∧ (broadcastToWebSockets kind conns).1
        = conns.filter (fun c => !c.broken)
    ∧ ∀ c ∈ conns, c.broken = false →
        (c.cid, kind) ∈ (broadcastToWebSockets kind conns).2 := by
  rw [broadcastToWebSockets_eq]
  refine ⟨?_, rfl, ?_⟩
  · rw [List.length_map]
    exact length_filter_healthy conns h
  · intro c hc hhealthy
    apply List.mem_map.mpr
    refine ⟨c, ?_, rfl⟩
    apply List.mem_filter.mpr
    exact ⟨hc, by simp [hhealthy]⟩

/-- C5 witness: three connections with the middle one broken; the other two
receive the event and survive. -/
theorem c5_broadcast_isolation_witness :
    ([⟨1, false⟩, ⟨2, true⟩, ⟨3, false⟩] : List WSConn).countP
        (fun c => c.broken) = 1
    ∧ ((broadcastToWebSockets EventKind.data
          [⟨1, false⟩, ⟨2, true⟩, ⟨3, false⟩]).2.length
        = ([⟨1, false⟩, ⟨2, true⟩, ⟨3, false⟩] : List WSConn).length - 1
    ∧ (broadcastToWebSockets EventKind.data
          [⟨1, false⟩, ⟨2, true⟩, ⟨3, false⟩]).1
        = ([⟨1, false⟩, ⟨2, true⟩, ⟨3, false⟩] : List WSConn).filter
            (fun c => !c.broken)
    ∧ ∀ c ∈ ([⟨1, false⟩, ⟨2, true⟩, ⟨3, false⟩] : List WSConn),
        c.broken = false →
          (c.cid, EventKind.data) ∈ (broadcastToWebSockets EventKind.data
            [⟨1, false⟩, ⟨2, true⟩, ⟨3, false⟩]).2) :=
  ⟨by decide, c5_broadcast_isolation EventKind.data _ (by decide)⟩

/-- The error event the catch branch sends (ToolSession.ts lines 311-318):
type error, payload carrying the failure reason and the executionId. -/
structure ErrorEvent where
  reason : String
  executionId : String
deriving DecidableEq, Repr

/-- How the executor feed of one relayed execution ends: clean end-of-stream
(`done` from the reader) or a thrown error with its message. -/
inductive FeedOutcome
  | clean
  | errored (reason : String)
deriving DecidableEq, Repr

/-- The relay's terminal behavior (ToolSession.ts lines 287-319): on clean
end-of-stream, the execution is marked completed (endTime now, progress 100);
on a feed or transport error, the execution is marked failed (endTime now) and
a single error event carrying the message and the executionId is sent with
`websocket.send` on the requesting connection only — broadcastToWebSockets is
not called, so the other attached connections receive nothing. The deliveries
are returned as (connection id, event) pairs. -/
def relayFinish (now : Int) (executionId : String) (requesterCid : Nat)
    (outcome : FeedOutcome) (s : SessionData) (websockets : List WSConn) :
    SessionData × List (Nat × ErrorEvent) :=
  match outcome, websockets with
  | FeedOutcome.clean, _ =>
      (completeExecution now true executionId s, [])
  | FeedOutcome.errored reason, _ =>
      (completeExecution now false executionId s,
       [(requesterCid, { reason := reason, executionId := executionId })])

/-- C6: the claim states the error event is broadcast to the session's
attached connections. The code sends it with `websocket.send` on the
requesting connection only: with two healthy attached connections 1 and 2 and
requester 1, connection 2 — although attached — receives no error event. -/
theorem c6_counterexample :
    ((⟨2, false⟩ : WSConn) ∈ ([⟨1, false⟩, ⟨2, false⟩] : List WSConn))
    ∧ (2, ({ reason := "boom", executionId := "e1" } : ErrorEvent))
        ∉ (relayFinish 9 "e1" 1 (FeedOutcome.errored "boom")
            { id := "s1", createdAt := 0, updatedAt := 0,
              status := SessionStatus.streaming,
              toolExecutions :=
                [{ id := "e1", toolName := "scan", agent := "bug_hunter",
                   status := ExecStatus.running, startTime := 1,
                   endTime := none, progress := some 10 }],
              websocketConnections := 2, lastActivity := 0 }
            [⟨1, false⟩, ⟨2, false⟩]).2 := by
  decide

/-- C6 (amended): clean end-of-stream marks the execution completed (endTime
now, progress 100) with no error event; a feed or transport error marks it
failed (endTime now) and produces exactly one error event carrying the failure
reason and the executionId, delivered to the requesting connection only. -/
theorem c6_relay_termination (now : Int) (executionId : String)
    (requesterCid : Nat) (reason : String) (s : SessionData)
    (websockets : List WSConn) (e : ToolExecution)
    (hfind : s.toolExecutions.find? (fun x => x.id == executionId) = some e) :
    ((relayFinish now executionId requesterCid FeedOutcome.clean s
          websockets).1.toolExecutions.find? (fun x => x.id == executionId)
        = some { e with status := ExecStatus.completed, endTime := some now,
                        progress := some 100 })
    ∧ (relayFinish now executionId requesterCid FeedOutcome.clean s
          websockets).2 = []
    ∧ ((relayFinish now executionId requesterCid (FeedOutcome.errored reason)
          s websockets).1.toolExecutions.find? (fun x => x.id == executionId)
        = some { e with status := ExecStatus.failed, endTime := some now })
    ∧ (relayFinish now executionId requesterCid (FeedOutcome.errored reason)
          s websockets).2
        = [(requesterCid, { reason := reason, executionId := executionId })] := by
  have hclean := find?_updateFirst (fun x => x.id == executionId)
    (completeExec1 now true)
    (fun x hx => by simpa [completeExec1] using hx) s.toolExecutions
  have herr := find?_updateFirst (fun x => x.id == executionId)
    (completeExec1 now false)
    (fun x hx => by simpa [completeExec1] using hx) s.toolExecutions
  refine ⟨?_, rfl, ?_, rfl⟩
  · show (updateFirst (fun x => x.id == executionId) (completeExec1 now true)
        s.toolExecutions).find? (fun x => x.id == executionId) = _
    rw [hclean, hfind]
    simp [completeExec1]
  · show (updateFirst (fun x => x.id == executionId) (completeExec1 now false)
        s.toolExecutions).find? (fun x => x.id == executionId) = _
    rw [herr, hfind]
    simp [completeExec1]

/-- C6 witness: a concrete running execution completed on clean end-of-stream
and failed with one requester-directed error event on a feed error. -/
theorem c6_relay_termination_witness :
    (({ id := "s1", createdAt := 0, updatedAt := 0,
        status := SessionStatus.streaming,
        toolExecutions :=
          [{ id := "e1", toolName := "scan", agent := "bug_hunter",
             status := ExecStatus.running, startTime := 1,
             endTime := none, progress := some 10 }],
        websocketConnections := 1,
        lastActivity := 0 } : SessionData).toolExecutions.find?
          (fun x => x.id == "e1")
        = some { id := "e1", toolName := "scan", agent := "bug_hunter",
                 status := ExecStatus.running, startTime := 1,
                 endTime := none, progress := some 10 })
    ∧ ((relayFinish 9 "e1" 1 FeedOutcome.clean
          { id := "s1", createdAt := 0, updatedAt := 0,
            status := SessionStatus.streaming,
            toolExecutions :=
              [{ id := "e1", toolName := "scan", agent := "bug_hunter",
                 status := ExecStatus.running, startTime := 1,
                 endTime := none, progress := some 10 }],
            websocketConnections := 1, lastActivity := 0 }
          [⟨1, false⟩]).1.toolExecutions.find? (fun x => x.id == "e1")
        = some { id := "e1", toolName := "scan", agent := "bug_hunter",
                 status := ExecStatus.completed, startTime := 1,
                 endTime := some 9, progress := some 100 }
    ∧ (relayFinish 9 "e1" 1 FeedOutcome.clean
          { id := "s1", createdAt := 0, updatedAt := 0,
            status := SessionStatus.streaming,
            toolExecutions :=
              [{ id := "e1", toolName := "scan", agent := "bug_hunter",
                 status := ExecStatus.running, startTime := 1,
                 endTime := none, progress := some 10 }],
            websocketConnections := 1, lastActivity := 0 }
          [⟨1, false⟩]).2 = []
    ∧ (relayFinish 9 "e1" 1 (FeedOutcome.errored "boom")
          { id := "s1", createdAt := 0, updatedAt := 0,
            status := SessionStatus.streaming,
            toolExecutions :=
              [{ id := "e1", toolName := "scan", agent := "bug_hunter",
                 status := ExecStatus.running, startTime := 1,
                 endTime := none, progress := some 10 }],
            websocketConnections := 1, lastActivity := 0 }
          [⟨1, false⟩]).1.toolExecutions.find? (fun x => x.id == "e1")
        = some { id := "e1", toolName := "scan", agent := "bug_hunter",
                 status := ExecStatus.failed, startTime := 1,
                 endTime := some 9, progress := some 10 }
    ∧ (relayFinish 9 "e1" 1 (FeedOutcome.errored "boom")
          { id := "s1", createdAt := 0, updatedAt := 0,
            status := SessionStatus.streaming,
            toolExecutions :=
              [{ id := "e1", toolName := "scan", agent := "bug_hunter",
                 status := ExecStatus.running, startTime := 1,
                 endTime := none, progress := some 10 }],
            websocketConnections := 1, lastActivity := 0 }
          [⟨1, false⟩]).2
        = [(1, { reason := "boom", executionId := "e1" })]) :=
  ⟨by decide,
   c6_relay_termination 9 "e1" 1 "boom"
     { id := "s1", createdAt := 0, updatedAt := 0,
       status := SessionStatus.streaming,
       toolExecutions :=
         [{ id := "e1", toolName := "scan", agent := "bug_hunter",
            status := ExecStatus.running, startTime := 1,
            endTime := none, progress := some 10 }],
       websocketConnections := 1, lastActivity := 0 }
     [⟨1, false⟩]
     { id := "e1", toolName := "scan", agent := "bug_hunter",
       status := ExecStatus.running, startTime := 1,
       endTime := none, progress := some 10 }
     (by decide)⟩

/-- What the relay forwards for one line of a feed chunk: a decoded event
(forwarded enriched with executionId), or the raw payload wrapped in a
best-effort data event when JSON parsing failed. -/
inductive ForwardedMsg
  | parsedEvent (eventData : String)
  | rawData (eventData : String)
deriving DecidableEq, Repr

/-- Processing of one line of a decoded chunk (ToolSession.ts lines 251-284):
only lines starting with `data: ` are considered; their payload
(`line.slice(6)`) is JSON-parsed and forwarded, falling back to a raw data
event when parsing throws. Lines without the prefix produce nothing. The JSON
parser is abstracted as a Bool-valued oracle `decodes`. -/
def processLine (decodes : String → Bool) (line : String) :
    Option ForwardedMsg :=
  if strStartsWith line "data: " then
    if decodes (strDrop line 6) then
      some (ForwardedMsg.parsedEvent (strDrop line 6))
    else
      some (ForwardedMsg.rawData (strDrop line 6))
  else none

/-- Processing of one chunk (ToolSession.ts lines 248-285): the chunk is split
on newlines and each line goes through processLine. -/
def processChunk (decodes : String → Bool) (chunk : String) :
    List ForwardedMsg :=
  (splitNewlines chunk).filterMap (processLine decodes)

theorem processLines_eq (decodes : String → Bool) (l : List String) :
    l.filterMap (processLine decodes)
      = (l.filter (fun s => strStartsWith s "data: ")).map
          (fun s =>
            if decodes (strDrop s 6) then ForwardedMsg.parsedEvent (strDrop s 6)
            else ForwardedMsg.rawData (strDrop s 6)) := by
  induction l with
  | nil => rfl
  | cons a l ih =>
      by_cases h : strStartsWith a "data: " = true
      · by_cases hd : decodes (strDrop a 6) = true
        · simp [List.filterMap_cons, List.filter_cons, processLine, h, hd, ih]
        · simp [List.filterMap_cons, List.filter_cons, processLine, h, hd, ih]
      · simp [List.filterMap_cons, List.filter_cons, processLine, h, ih]

/-- C7: the claim states no bytes of the feed are silently discarded — a chunk
whose decoding fails is forwarded as a raw data event. But the relay only
looks at lines prefixed `data: `: the nonempty chunk "event: progress"
produces no forwarded message at all, whatever the JSON oracle says of it. -/
theorem c7_counterexample :
    processChunk (fun _ => false) "event: progress" = []
    ∧ "event: progress" ≠ "" := by
  constructor
  · decide
  · decide

/-- C7 (amended): exactly the `data: `-prefixed lines of a chunk are
forwarded, each as one message in order — a line whose payload fails to
decode is forwarded as a best-effort raw data event rather than dropped —
while every line without the `data: ` prefix is silently discarded. -/
theorem c7_data_lines_forwarded (decodes : String → Bool) (chunk : String) :
    processChunk decodes chunk
      = ((splitNewlines chunk).filter (fun s => strStartsWith s "data: ")).map
          (fun s =>
            if decodes (strDrop s 6) then ForwardedMsg.parsedEvent (strDrop s 6)
            else ForwardedMsg.rawData (strDrop s 6)) :=
  processLines_eq decodes (splitNewlines chunk)

/-- The sweep eligibility test of the alarm handler (ToolSession.ts lines
537-543): the key carries the `session:` prefix, the record's lastActivity is
strictly older than one hour (3600000 ms) before now, and it has no live
WebSocket connections. -/
def sweepEligible (now : Int) (key : String) (s : SessionData) : Bool :=
  strStartsWith key "session:"
    && (decide (s.lastActivity < now - 3600000)
        && (s.websocketConnections == 0))

/-- One failure-free sweep (alarm, ToolSession.ts lines 531-554): every
eligible entry is deleted from the store, every other entry survives. -/
def alarmSweep (now : Int) (st : Store) : Store :=
  st.filter (fun e => !(sweepEligible now e.1 e.2))

/-- C8: a session entry examined by the sweep is deleted exactly when its
connection count is zero and now minus lastActivity strictly exceeds one hour;
in particular an entry with a positive connection count survives the sweep
regardless of how old its lastActivity is. -/
theorem c8_sweep_exactness (now : Int) (key : String) (s : SessionData)
    (st : Store) (hmem : (key, s) ∈ st)
    (hkey : strStartsWith key "session:" = true) :
    (((key, s) ∈ alarmSweep now st)
        ↔ ¬(s.websocketConnections = 0 ∧ 3600000 < now - s.lastActivity))
    ∧ (0 < s.websocketConnections → (key, s) ∈ alarmSweep now st) := by
  have hiff : ((key, s) ∈ alarmSweep now st)
      ↔ (s.lastActivity < now - 3600000 → ¬s.websocketConnections = 0) := by
    simp [alarmSweep, List.mem_filter, hmem, sweepEligible, hkey]
    omega
  constructor
  · rw [hiff]
    omega
  · intro hpos
    rw [hiff]
    omega

/-- C8 witness: an idle hour-old connection-free session is swept, so is
absent from the swept store. -/
theorem c8_sweep_exactness_witness :
    (("session:a",
        ({ id := "a", createdAt := 0, updatedAt := 0,
           status := SessionStatus.inactive, toolExecutions := [],
           websocketConnections := 0, lastActivity := 0 } : SessionData))
      ∈ ([("session:a",
            { id := "a", createdAt := 0, updatedAt := 0,
              status := SessionStatus.inactive, toolExecutions := [],
              websocketConnections := 0, lastActivity := 0 })] : Store))
    ∧ (strStartsWith "session:a" "session:" = true)
    ∧ ((("session:a",
          ({ id := "a", createdAt := 0, updatedAt := 0,
             status := SessionStatus.inactive, toolExecutions := [],
             websocketConnections := 0, lastActivity := 0 } : SessionData))
        ∈ alarmSweep 7200000
            [("session:a",
              { id := "a", createdAt := 0, updatedAt := 0,
                status := SessionStatus.inactive, toolExecutions := [],
                websocketConnections := 0, lastActivity := 0 })])
      ↔ ¬((0 : Int) = 0 ∧ (3600000 : Int) < 7200000 - 0)) := by
  refine ⟨by decide, by decide, ?_⟩
  have h := c8_sweep_exactness 7200000 "session:a"
    { id := "a", createdAt := 0, updatedAt := 0,
      status := SessionStatus.inactive, toolExecutions := [],
      websocketConnections := 0, lastActivity := 0 }
    [("session:a",
      { id := "a", createdAt := 0, updatedAt := 0,
        status := SessionStatus.inactive, toolExecutions := [],
        websocketConnections := 0, lastActivity := 0 })]
    (by decide) (by decide)
  exact h.1

/-- The alarm handler with delete failures injected (ToolSession.ts lines
531-554): the handler iterates over the listed entries and deletes each
eligible one; the whole loop runs inside a single try/catch, so the first
delete that throws (keys listed in `failing`) ends the handler — the entries
after it are never examined. The first argument list is the snapshot produced
by `storage.list()`, the second the store being mutated. -/
def alarmSweepFallible (now : Int) (failing : List String) :
    List (String × SessionData) → Store → Store
  | [], st => st
  | (key, s) :: rest, st =>
      if sweepEligible now key s then
        if failing.contains key then st
        else alarmSweepFallible now failing rest
          (st.filter (fun e => !(e.1 == key)))
      else alarmSweepFallible now failing rest st

/-- A full alarm run with failures: the snapshot is the store itself. -/
def alarmWithFailures (now : Int) (failing : List String) (st : Store) :
    Store :=
  alarmSweepFallible now failing st st

/-- C9: the claim states that a failure on one key does not abort the sweep of
the remaining keys. The loop body runs inside one try/catch around the whole
sweep: with two hour-old idle sessions a and b and a store whose delete of
`session:a` throws, the sweep leaves the store untouched — `session:b` is
still present even though it is eligible. -/
theorem c9_counterexample :
    alarmWithFailures 7200000 ["session:a"]
        [("session:a",
          { id := "a", createdAt := 0, updatedAt := 0,
            status := SessionStatus.inactive, toolExecutions := [],
            websocketConnections := 0, lastActivity := 0 }),
         ("session:b",
          { id := "b", createdAt := 0, updatedAt := 0,
            status := SessionStatus.inactive, toolExecutions := [],
            websocketConnections := 0, lastActivity := 0 })]
      = [("session:a",
          { id := "a", createdAt := 0, updatedAt := 0,
            status := SessionStatus.inactive, toolExecutions := [],
            websocketConnections := 0, lastActivity := 0 }),
         ("session:b",
          { id := "b", createdAt := 0, updatedAt := 0,
            status := SessionStatus.inactive, toolExecutions := [],
            websocketConnections := 0, lastActivity := 0 })]
    ∧ sweepEligible 7200000 "session:b"
        { id := "b", createdAt := 0, updatedAt := 0,
          status := SessionStatus.inactive, toolExecutions := [],
          websocketConnections := 0, lastActivity := 0 } = true := by
  constructor
  · rfl
  · decide

/-- C9 (amended): a throwing delete aborts the whole sweep: when the sweep
reaches an eligible entry whose delete fails, the handler returns with the
store as accumulated so far, and none of the remaining entries is examined or
deleted in that run. -/
theorem c9_sweep_aborts_on_failure (now : Int) (failing : List String)
    (key : String) (s : SessionData) (rest : List (String × SessionData))
    (st : Store) (helig : sweepEligible now key s = true)
    (hfail : failing.contains key = true) :
    alarmSweepFallible now failing ((key, s) :: rest) st = st := by
  show (if sweepEligible now key s then
          (if failing.contains key then st
           else alarmSweepFallible now failing rest
             (st.filter (fun e => !(e.1 == key))))
        else alarmSweepFallible now failing rest st) = st
  rw [helig, hfail]
  rfl

/-- C9 witness: the failing head entry stops the sweep with the store
untouched. -/
theorem c9_sweep_aborts_on_failure_witness :
    sweepEligible 7200000 "session:a"
        { id := "a", createdAt := 0, updatedAt := 0,
          status := SessionStatus.inactive, toolExecutions := [],
          websocketConnections := 0, lastActivity := 0 } = true
    ∧ (["session:a"].contains "session:a" = true)
    ∧ alarmSweepFallible 7200000 ["session:a"]
        [("session:a",
          { id := "a", createdAt := 0, updatedAt := 0,
            status := SessionStatus.inactive, toolExecutions := [],
            websocketConnections := 0, lastActivity := 0 }),
         ("session:b",
          { id := "b", createdAt := 0, updatedAt := 0,
            status := SessionStatus.inactive, toolExecutions := [],
            websocketConnections := 0, lastActivity := 0 })]
        [("session:b",
          { id := "b", createdAt := 0, updatedAt := 0,
            status := SessionStatus.inactive, toolExecutions := [],
            websocketConnections := 0, lastActivity := 0 })]
      = [("session:b",
          { id := "b", createdAt := 0, updatedAt := 0,
            status := SessionStatus.inactive, toolExecutions := [],
            websocketConnections := 0, lastActivity := 0 })] :=
  ⟨by decide, by decide,
   c9_sweep_aborts_on_failure 7200000 ["session:a"] "session:a"
     { id := "a", createdAt := 0, updatedAt := 0,
       status := SessionStatus.inactive, toolExecutions := [],
       websocketConnections := 0, lastActivity := 0 }
     [("session:b",
       { id := "b", createdAt := 0, updatedAt := 0,
         status := SessionStatus.inactive, toolExecutions := [],
         websocketConnections := 0, lastActivity := 0 })]
     [("session:b",
       { id := "b", createdAt := 0, updatedAt := 0,
         status := SessionStatus.inactive, toolExecutions := [],
         websocketConnections := 0, lastActivity := 0 })]
     (by decide) (by decide)⟩

/-- The outcome of deleteSession. -/
inductive DeleteOutcome
  | deleted
  | notFound
deriving DecidableEq, Repr

/-- The durable object's relevant in-memory plus persisted state: the storage
and the WebSocket connection set. -/
structure ObjectState where
  store : Store
  websockets : List WSConn
deriving DecidableEq, Repr

/-- deleteSession (ToolSession.ts lines 488-516): first broadcasts a
connection-kind shutdown event to the WebSocket set, then closes every
surviving connection and clears the set, and only then calls storage.delete;
a missing key yields the NotFound response. Returns the outcome, the new
state (store without the key, empty connection set), the broadcast
deliveries, and the ids of the connections that were force-closed. -/
def deleteSession (sessionId : String) (obj : ObjectState) :
    DeleteOutcome × ObjectState × List (Nat × EventKind) × List Nat :=
  ((if (storeDelete obj.store ("session:" ++ sessionId)).1 then
      DeleteOutcome.deleted
    else DeleteOutcome.notFound),
   { store := (storeDelete obj.store ("session:" ++ sessionId)).2,
     websockets := [] },
   (broadcastToWebSockets EventKind.connection obj.websockets).2,
   (broadcastToWebSockets EventKind.connection obj.websockets).1.map
     (fun c => c.cid))

/-- C10: when the session id is absent from the store, deleteSession still
broadcasts the connection-kind shutdown event (every healthy attached
connection receives it), force-closes the surviving connections and clears
the whole set, and returns NotFound — the NotFound outcome is decided only
after the connection set has already been torn down. -/
theorem c10_delete_not_found (sessionId : String) (obj : ObjectState)
    (habs : storeGet obj.store ("session:" ++ sessionId) = none) :
    (deleteSession sessionId obj).1 = DeleteOutcome.notFound
    ∧ (deleteSession sessionId obj).2.1.websockets = []
    ∧ (∀ c ∈ obj.websockets, c.broken = false →
        (c.cid, EventKind.connection) ∈ (deleteSession sessionId obj).2.2.1)
    ∧ (deleteSession sessionId obj).2.2.2
        = (obj.websockets.filter (fun c => !c.broken)).map
            (fun c => c.cid) := by
  have hfind : obj.store.find?
      (fun e => e.1 == ("session:" ++ sessionId)) = none := by
    unfold storeGet at habs
    cases hx : obj.store.find? (fun e => e.1 == ("session:" ++ sessionId)) with
    | none => rfl
    | some v =>
        rw [hx] at habs
        simp at habs
  refine ⟨?_, rfl, ?_, ?_⟩
  · simp [deleteSession, storeDelete, hfind]
  · intro c hc hhealthy
    show (c.cid, EventKind.connection)
        ∈ (broadcastToWebSockets EventKind.connection obj.websockets).2
    rw [broadcastToWebSockets_eq]
    apply List.mem_map.mpr
    refine ⟨c, ?_, rfl⟩
    apply List.mem_filter.mpr
    exact ⟨hc, by simp [hhealthy]⟩
  · show (broadcastToWebSockets EventKind.connection obj.websockets).1.map
        (fun c => c.cid) = _
    rw [broadcastToWebSockets_eq]

/-- C10 witness: deleting a missing id with one healthy connection attached
still tears the connection down and reports NotFound. -/
theorem c10_delete_not_found_witness :
    storeGet ([] : Store) ("session:" ++ "x") = none
    ∧ ((deleteSession "x" { store := [], websockets := [⟨1, false⟩] }).1
        = DeleteOutcome.notFound
    ∧ (deleteSession "x"
        { store := [], websockets := [⟨1, false⟩] }).2.1.websockets = []
    ∧ (∀ c ∈ ([⟨1, false⟩] : List WSConn), c.broken = false →
        (c.cid, EventKind.connection)
          ∈ (deleteSession "x"
              { store := [], websockets := [⟨1, false⟩] }).2.2.1)
    ∧ (deleteSession "x" { store := [], websockets := [⟨1, false⟩] }).2.2.2
        = (([⟨1, false⟩] : List WSConn).filter (fun c => !c.broken)).map
            (fun c => c.cid)) :=
  ⟨by decide,
   c10_delete_not_found "x" { store := [], websockets := [⟨1, false⟩] }
     (by decide)⟩

end ToolSessionModel
